import Mathlib

/-!
Verification of the WebRTC WHEP client wrapper specification against a shallow
embedding of `src/internal/libwebrtc/webrtc_objc_wrapper.h`.

The repository ships only the C header declaring the wrapper interface; the
implementations of the declared functions are not part of the repository
sources.  The enum types, their numeric values and the callback signatures are
taken directly from the header; every behavioural definition is modelled from
the specification (and is marked as such in its doc comment).
-/

/-- ICE connection states, from `webrtc_objc_wrapper.h` lines 19-27
(`ICE_CONNECTION_NEW` .. `ICE_CONNECTION_CLOSED`). -/
inductive ICEConnectionState where
  | new
  | checking
  | connected
  | completed
  | failed
  | disconnected
  | closed
deriving DecidableEq, Repr

/-- Numeric value of each ICE connection state, exactly as assigned in the
header (`ICE_CONNECTION_NEW = 0`, ..., `ICE_CONNECTION_CLOSED = 6`). -/
def ICEConnectionState.code : ICEConnectionState → Nat
  | .new => 0
  | .checking => 1
  | .connected => 2
  | .completed => 3
  | .failed => 4
  | .disconnected => 5
  | .closed => 6

/-- ICE gathering states, from `webrtc_objc_wrapper.h` lines 30-34
(`ICE_GATHERING_NEW` .. `ICE_GATHERING_COMPLETE`). -/
inductive ICEGatheringState where
  | new
  | gathering
  | complete
deriving DecidableEq, Repr

/-- Numeric value of each ICE gathering state, exactly as assigned in the
header (`ICE_GATHERING_NEW = 0`, `ICE_GATHERING_GATHERING = 1`,
`ICE_GATHERING_COMPLETE = 2`). -/
def ICEGatheringState.code : ICEGatheringState → Nat
  | .new => 0
  | .gathering => 1
  | .complete => 2

/-- Modelled from the spec: the error taxonomy of §7 (the header returns a raw
`int`; the status values of the missing implementation are modelled by this
enumeration). -/
inductive StatusCode where
  | ok
  | invalidHandle
  | preconditionViolated
  | malformedDescription
  | resourceExhausted
deriving DecidableEq, Repr

/-- Modelled from the spec: session description types of §3
(type is `offer` or `answer`); the header passes the type as a C string. -/
inductive SDType where
  | offer
  | answer
deriving DecidableEq, Repr

/-- Modelled from the spec: the immutable `SessionDescription` value object of
§3 (type plus serialized description text); absent from the header, which
passes the two components as separate C strings. -/
structure SessionDescription where
  sdpType : SDType
  text : String
deriving DecidableEq, Repr

/-- Modelled from the spec: the per-connection state of §3 (`PeerConnection`
attributes) behind the opaque `PeerConnectionHandle` of the header, whose
backing implementation is absent from the repository.  The transceiver set is
"at most one video, one audio", hence two booleans. -/
structure PCState where
  closed : Bool
  iceState : ICEConnectionState
  gathState : ICEGatheringState
  hasVideo : Bool
  hasAudio : Bool
  localDesc : Option SessionDescription
  remoteDesc : Option SessionDescription
deriving DecidableEq, Repr

/-- Modelled from the spec: the initial state of a connection returned by
`webrtc_objc_pc_create` (§4.2: "returns a handle in state
(ICE=new, gathering=new)"), with no transceivers and no descriptions. -/
def initialPC : PCState :=
  { closed := false
    iceState := ICEConnectionState.new
    gathState := ICEGatheringState.new
    hasVideo := false
    hasAudio := false
    localDesc := none
    remoteDesc := none }

/-- Modelled from the spec: whether the remote slot holds an applied `answer`
(§4.2 forbids adding transceivers once a remote description is applied after
answer). -/
def hasRemoteAnswer (s : PCState) : Bool :=
  match s.remoteDesc with
  | some d => d.sdpType = SDType.answer
  | none => false

/-- Modelled from the spec: whether the local slot holds an `offer` (§4.4
ordering invariant for applying a remote `answer`). -/
def hasLocalOffer (s : PCState) : Bool :=
  match s.localDesc with
  | some d => d.sdpType = SDType.offer
  | none => false

/-- Modelled from the spec: whether the remote slot holds an `offer` (§8: a
local `answer` before any offer exists is a precondition violation). -/
def hasRemoteOffer (s : PCState) : Bool :=
  match s.remoteDesc with
  | some d => d.sdpType = SDType.offer
  | none => false

/-- Modelled from the spec: structural validation of a session description
text (§4.4 "validates the text is a well-formed description for the declared
type"; the spec fixes no grammar, so validation is modelled as non-emptiness
of the text). -/
def validDescription (_ty : SDType) (text : String) : Bool :=
  decide (text ≠ "")

/-- Modelled from the spec: `webrtc_objc_pc_add_video_transceiver`, whose
implementation is absent from the repository.  §4.2: fails if a video
transceiver already exists, if the connection is closed, or if a remote
description is applied after answer. -/
def webrtc_objc_pc_add_video_transceiver (s : PCState) : StatusCode × PCState :=
  if s.closed then (StatusCode.invalidHandle, s)
  else if s.hasVideo then (StatusCode.preconditionViolated, s)
  else if hasRemoteAnswer s then (StatusCode.preconditionViolated, s)
  else (StatusCode.ok, { s with hasVideo := true })

/-- Modelled from the spec: `webrtc_objc_pc_add_audio_transceiver`, whose
implementation is absent from the repository; symmetric to the video case
(§4.2). -/
def webrtc_objc_pc_add_audio_transceiver (s : PCState) : StatusCode × PCState :=
  if s.closed then (StatusCode.invalidHandle, s)
  else if s.hasAudio then (StatusCode.preconditionViolated, s)
  else if hasRemoteAnswer s then (StatusCode.preconditionViolated, s)
  else (StatusCode.ok, { s with hasAudio := true })

/-- Modelled from the spec: the offer text synthesized by `createOffer`
(§4.4 "summarizing the transceivers and ICE gathering progress so far"; the
exact SDP grammar is out of the spec's scope, so a deterministic summary is
used). -/
def offerText (s : PCState) : String :=
  "v=0 offer"
    ++ (if s.hasVideo then " m=video" else "")
    ++ (if s.hasAudio then " m=audio" else "")
    ++ " gathering=" ++ toString (ICEGatheringState.code s.gathState)

/-- Modelled from the spec: `webrtc_objc_pc_create_offer`, whose
implementation is absent from the repository.  §4.4: valid only when at least
one transceiver exists and no local description has yet been set; failure is
the `NULL` C string, modelled as `none`. -/
def webrtc_objc_pc_create_offer (s : PCState) : Option String :=
  if s.closed then none
  else if ¬ (s.hasVideo = true ∨ s.hasAudio = true) then none
  else if s.localDesc.isSome then none
  else some (offerText s)

/-- Modelled from the spec: `webrtc_objc_pc_set_local_description`, whose
implementation is absent from the repository.  §4.4: validates the text;
idempotent re-application of an identical description is a no-op; a local
`answer` before any (remote) offer exists is a precondition violation (§8);
re-application with different content after checking has started is rejected
(one negotiation round). -/
def webrtc_objc_pc_set_local_description (s : PCState) (sdp : String) (ty : SDType) :
    StatusCode × PCState :=
  if s.closed then (StatusCode.invalidHandle, s)
  else if validDescription ty sdp = false then (StatusCode.malformedDescription, s)
  else if s.localDesc = some { sdpType := ty, text := sdp } then (StatusCode.ok, s)
  else if ty = SDType.answer ∧ hasRemoteOffer s = false then (StatusCode.preconditionViolated, s)
  else if s.localDesc.isSome ∧ s.iceState ≠ ICEConnectionState.new then
    (StatusCode.preconditionViolated, s)
  else (StatusCode.ok, { s with localDesc := some { sdpType := ty, text := sdp } })

/-- Modelled from the spec: `webrtc_objc_pc_set_remote_description`, whose
implementation is absent from the repository.  §4.4: a remote `answer`
requires a local `offer` already set; a remote `offer` requires no local
description yet set; otherwise symmetric to the local case. -/
def webrtc_objc_pc_set_remote_description (s : PCState) (sdp : String) (ty : SDType) :
    StatusCode × PCState :=
  if s.closed then (StatusCode.invalidHandle, s)
  else if validDescription ty sdp = false then (StatusCode.malformedDescription, s)
  else if ty = SDType.answer ∧ hasLocalOffer s = false then (StatusCode.preconditionViolated, s)
  else if ty = SDType.offer ∧ s.localDesc.isSome then (StatusCode.preconditionViolated, s)
  else if s.remoteDesc = some { sdpType := ty, text := sdp } then (StatusCode.ok, s)
  else if s.remoteDesc.isSome ∧ s.iceState ≠ ICEConnectionState.new then
    (StatusCode.preconditionViolated, s)
  else (StatusCode.ok, { s with remoteDesc := some { sdpType := ty, text := sdp } })

/-- Modelled from the spec: `webrtc_objc_pc_get_local_description`, whose
implementation is absent from the repository.  §4.4/§6: returns the stored
local description text, or the "unset"/NULL sentinel (modelled as `none`) if
none is set. -/
def webrtc_objc_pc_get_local_description (s : PCState) : Option String :=
  match s.localDesc with
  | some d => some d.text
  | none => none

/-- Modelled from the spec: `webrtc_objc_pc_close`, whose implementation is
absent from the repository.  §4.3/§5: any state transitions to `closed`
(terminal), close is idempotent, and a closed connection delivers no further
callbacks and rejects all further mutating operations. -/
def webrtc_objc_pc_close (s : PCState) : PCState :=
  { s with closed := true, iceState := ICEConnectionState.closed }

/-- Observer callbacks of the header (`OnICEStateCallback`,
`OnICEGatheringStateCallback`, `OnVideoFrameCallback`,
`OnEncodedAudioCallback`, lines 37-46).  The two state callbacks carry the raw
`int` state value the implementation passes; the media callbacks' payloads are
irrelevant to the claims and are elided. -/
inductive Callback where
  | onICEState (code : Nat)
  | onICEGatheringState (code : Nat)
  | onVideoFrame
  | onEncodedAudio
deriving DecidableEq, Repr

/-- Modelled from the spec: one atomic step of a connection's lifetime — a
consumer API call, the explicit close, or an internal ICE-agent / media
pipeline event delivering one observer callback.  The implementation behind
the header is absent from the repository; the guards and transitions follow
§4.3 (both state machines and their triggers), §4.5 (media delivery) and §5
(a closed connection starts no further callback). -/
inductive Step : PCState → Option Callback → PCState → Prop where
  | addVideo (s : PCState) :
      Step s none (webrtc_objc_pc_add_video_transceiver s).2
  | addAudio (s : PCState) :
      Step s none (webrtc_objc_pc_add_audio_transceiver s).2
  | setLocal (s : PCState) (sdp : String) (ty : SDType) :
      Step s none (webrtc_objc_pc_set_local_description s sdp ty).2
  | setRemote (s : PCState) (sdp : String) (ty : SDType) :
      Step s none (webrtc_objc_pc_set_remote_description s sdp ty).2
  | closeStep (s : PCState) :
      Step s none (webrtc_objc_pc_close s)
  | gatherStart (s : PCState) (h : s.closed = false)
      (hg : s.gathState = ICEGatheringState.new)
      (ht : s.hasVideo = true ∨ s.hasAudio = true)
      (hl : s.localDesc.isSome = true) :
      Step s (some (Callback.onICEGatheringState (ICEGatheringState.code ICEGatheringState.gathering)))
        { s with gathState := ICEGatheringState.gathering }
  | gatherDone (s : PCState) (h : s.closed = false)
      (hg : s.gathState = ICEGatheringState.gathering) :
      Step s (some (Callback.onICEGatheringState (ICEGatheringState.code ICEGatheringState.complete)))
        { s with gathState := ICEGatheringState.complete }
  | checkStart (s : PCState) (h : s.closed = false)
      (hi : s.iceState = ICEConnectionState.new)
      (hl : s.localDesc.isSome = true) (hr : s.remoteDesc.isSome = true) :
      Step s (some (Callback.onICEState (ICEConnectionState.code ICEConnectionState.checking)))
        { s with iceState := ICEConnectionState.checking }
  | checkSucceed (s : PCState) (h : s.closed = false)
      (hi : s.iceState = ICEConnectionState.checking) :
      Step s (some (Callback.onICEState (ICEConnectionState.code ICEConnectionState.connected)))
        { s with iceState := ICEConnectionState.connected }
  | checkFail (s : PCState) (h : s.closed = false)
      (hi : s.iceState = ICEConnectionState.checking) :
      Step s (some (Callback.onICEState (ICEConnectionState.code ICEConnectionState.failed)))
        { s with iceState := ICEConnectionState.failed }
  | checksOptimal (s : PCState) (h : s.closed = false)
      (hi : s.iceState = ICEConnectionState.connected) :
      Step s (some (Callback.onICEState (ICEConnectionState.code ICEConnectionState.completed)))
        { s with iceState := ICEConnectionState.completed }
  | disconnect (s : PCState) (h : s.closed = false)
      (hi : s.iceState = ICEConnectionState.connected ∨ s.iceState = ICEConnectionState.completed) :
      Step s (some (Callback.onICEState (ICEConnectionState.code ICEConnectionState.disconnected)))
        { s with iceState := ICEConnectionState.disconnected }
  | recover (s : PCState) (h : s.closed = false)
      (hi : s.iceState = ICEConnectionState.disconnected) :
      Step s (some (Callback.onICEState (ICEConnectionState.code ICEConnectionState.connected)))
        { s with iceState := ICEConnectionState.connected }
  | videoFrame (s : PCState) (h : s.closed = false)
      (hi : s.iceState = ICEConnectionState.connected ∨ s.iceState = ICEConnectionState.completed) :
      Step s (some Callback.onVideoFrame) s
  | encodedAudio (s : PCState) (h : s.closed = false)
      (hi : s.iceState = ICEConnectionState.connected ∨ s.iceState = ICEConnectionState.completed) :
      Step s (some Callback.onEncodedAudio) s

/-- Prepends an optional callback to a list of delivered callbacks. -/
def consOpt : Option Callback → List Callback → List Callback
  | none, cs => cs
  | some c, cs => c :: cs

/-- Modelled from the spec: finitely many successive steps of one connection,
recording the callbacks delivered along the way in order (§5: callbacks for a
single connection are delivered in a single logical order). -/
inductive Steps : PCState → List Callback → PCState → Prop where
  | refl (s : PCState) : Steps s [] s
  | cons {s s' s'' : PCState} {c : Option Callback} {cs : List Callback} :
      Step s c s' → Steps s' cs s'' → Steps s (consOpt c cs) s''

/-- Clamps an integer into the byte range 0..255. -/
def clamp255 (x : Int) : Int := max 0 (min 255 x)

/-- Modelled from the spec: the per-pixel YUV→RGB numeric conversion of the
pixel converter (§4.6 leaves the pixel math out of scope; the standard
fixed-point BT.601 formula is used). -/
def yuvPixel (y u v : Nat) : Nat × Nat × Nat :=
  let c : Int := (y : Int) - 16
  let d : Int := (u : Int) - 128
  let e : Int := (v : Int) - 128
  ((clamp255 ((298 * c + 409 * e + 128) / 256)).toNat,
   (clamp255 ((298 * c - 100 * d - 208 * e + 128) / 256)).toNat,
   (clamp255 ((298 * c + 516 * d + 128) / 256)).toNat)

/-- Modelled from the spec: the packed row-major RGBA byte list produced by
the pixel converter from the three planes (§4.6); chroma planes are sampled
at half resolution as in I420. -/
def i420ToRgbaBytes (srcY srcU srcV : Nat → Nat) (sY sU sV w h : Nat) : List Nat :=
  (List.range h).flatMap fun j =>
    (List.range w).flatMap fun i =>
      let p := yuvPixel (srcY (j * sY + i)) (srcU (j / 2 * sU + i / 2)) (srcV (j / 2 * sV + i / 2))
      [p.1, p.2.1, p.2.2, 255]

/-- Modelled from the spec: `webrtc_objc_i420_to_rgba`, whose implementation
is absent from the repository.  §4.6: a pure function that fails only on
non-positive width/height or insufficient caller-supplied destination
capacity (the capacity is implicit in the C signature and modelled
explicitly); planes are total byte maps, so no hidden state exists. -/
def webrtc_objc_i420_to_rgba (srcY : Nat → Nat) (srcStrideY : Int)
    (srcU : Nat → Nat) (srcStrideU : Int) (srcV : Nat → Nat) (srcStrideV : Int)
    (dstCapacity : Nat) (dstStrideRGBA : Int) (width height : Int) :
    Option (List Nat) :=
  if width ≤ 0 ∨ height ≤ 0 then none
  else if dstCapacity < dstStrideRGBA.toNat * (height.toNat - 1) + 4 * width.toNat then none
  else some (i420ToRgbaBytes srcY srcU srcV srcStrideY.toNat srcStrideU.toNat srcStrideV.toNat
    width.toNat height.toNat)

/-- Connection with a video transceiver added and nothing else. -/
def videoPC : PCState := { initialPC with hasVideo := true }

/-- Connection with a video transceiver and a local offer applied. -/
def readyPC : PCState :=
  { initialPC with
    hasVideo := true
    localDesc := some { sdpType := SDType.offer, text := "v=0" } }

/-- Connection in the middle of connectivity checks: both descriptions
applied and ICE connection state `checking`. -/
def checkingPC : PCState :=
  { readyPC with
    iceState := ICEConnectionState.checking
    remoteDesc := some { sdpType := SDType.answer, text := "a=1" } }

/-- All-zero source plane for concrete pixel-conversion inputs. -/
def zeroPlane : Nat → Nat := fun _ => 0

lemma addVideo_preserve (s : PCState) :
    (webrtc_objc_pc_add_video_transceiver s).2.closed = s.closed ∧
    (webrtc_objc_pc_add_video_transceiver s).2.iceState = s.iceState ∧
    (webrtc_objc_pc_add_video_transceiver s).2.gathState = s.gathState := by
  unfold webrtc_objc_pc_add_video_transceiver
  repeat' split
  all_goals exact ⟨rfl, rfl, rfl⟩

lemma addAudio_preserve (s : PCState) :
    (webrtc_objc_pc_add_audio_transceiver s).2.closed = s.closed ∧
    (webrtc_objc_pc_add_audio_transceiver s).2.iceState = s.iceState ∧
    (webrtc_objc_pc_add_audio_transceiver s).2.gathState = s.gathState := by
  unfold webrtc_objc_pc_add_audio_transceiver
  repeat' split
  all_goals exact ⟨rfl, rfl, rfl⟩

lemma setLocal_preserve (s : PCState) (sdp : String) (ty : SDType) :
    (webrtc_objc_pc_set_local_description s sdp ty).2.closed = s.closed ∧
    (webrtc_objc_pc_set_local_description s sdp ty).2.iceState = s.iceState ∧
    (webrtc_objc_pc_set_local_description s sdp ty).2.gathState = s.gathState := by
  unfold webrtc_objc_pc_set_local_description
  repeat' split
  all_goals exact ⟨rfl, rfl, rfl⟩

lemma setRemote_preserve (s : PCState) (sdp : String) (ty : SDType) :
    (webrtc_objc_pc_set_remote_description s sdp ty).2.closed = s.closed ∧
    (webrtc_objc_pc_set_remote_description s sdp ty).2.iceState = s.iceState ∧
    (webrtc_objc_pc_set_remote_description s sdp ty).2.gathState = s.gathState := by
  unfold webrtc_objc_pc_set_remote_description
  repeat' split
  all_goals exact ⟨rfl, rfl, rfl⟩

lemma addVideo_on_closed (s : PCState) (h : s.closed = true) :
    webrtc_objc_pc_add_video_transceiver s = (StatusCode.invalidHandle, s) := by
  simp [webrtc_objc_pc_add_video_transceiver, h]

lemma addAudio_on_closed (s : PCState) (h : s.closed = true) :
    webrtc_objc_pc_add_audio_transceiver s = (StatusCode.invalidHandle, s) := by
  simp [webrtc_objc_pc_add_audio_transceiver, h]

lemma setLocal_on_closed (s : PCState) (sdp : String) (ty : SDType) (h : s.closed = true) :
    webrtc_objc_pc_set_local_description s sdp ty = (StatusCode.invalidHandle, s) := by
  simp [webrtc_objc_pc_set_local_description, h]

lemma setRemote_on_closed (s : PCState) (sdp : String) (ty : SDType) (h : s.closed = true) :
    webrtc_objc_pc_set_remote_description s sdp ty = (StatusCode.invalidHandle, s) := by
  simp [webrtc_objc_pc_set_remote_description, h]

lemma createOffer_on_closed (s : PCState) (h : s.closed = true) :
    webrtc_objc_pc_create_offer s = none := by
  simp [webrtc_objc_pc_create_offer, h]

lemma step_closed {s : PCState} {c : Option Callback} {s' : PCState}
    (hst : Step s c s') (hc : s.closed = true) : s'.closed = true ∧ c = none := by
  cases hst with
  | addVideo => rw [addVideo_on_closed s hc]; exact ⟨hc, rfl⟩
  | addAudio => rw [addAudio_on_closed s hc]; exact ⟨hc, rfl⟩
  | setLocal sdp ty => rw [setLocal_on_closed s sdp ty hc]; exact ⟨hc, rfl⟩
  | setRemote sdp ty => rw [setRemote_on_closed s sdp ty hc]; exact ⟨hc, rfl⟩
  | closeStep => exact ⟨rfl, rfl⟩
  | gatherStart h hg ht hl => simp [hc] at h
  | gatherDone h hg => simp [hc] at h
  | checkStart h hi hl hr => simp [hc] at h
  | checkSucceed h hi => simp [hc] at h
  | checkFail h hi => simp [hc] at h
  | checksOptimal h hi => simp [hc] at h
  | disconnect h hi => simp [hc] at h
  | recover h hi => simp [hc] at h
  | videoFrame h hi => simp [hc] at h
  | encodedAudio h hi => simp [hc] at h

lemma steps_closed_no_cb {s : PCState} {cbs : List Callback} {s' : PCState}
    (h : Steps s cbs s') (hc : s.closed = true) : cbs = [] := by
  induction h with
  | refl s => rfl
  | cons hstep hrest ih =>
    obtain ⟨h1, h2⟩ := step_closed hstep hc
    subst h2
    exact ih h1

lemma step_gath {s : PCState} {c : Option Callback} {s' : PCState} (h : Step s c s') :
    s'.gathState = s.gathState ∨
    (s.gathState = ICEGatheringState.new ∧ s'.gathState = ICEGatheringState.gathering) ∨
    (s.gathState = ICEGatheringState.gathering ∧ s'.gathState = ICEGatheringState.complete) := by
  cases h with
  | addVideo => exact Or.inl (addVideo_preserve s).2.2
  | addAudio => exact Or.inl (addAudio_preserve s).2.2
  | setLocal sdp ty => exact Or.inl (setLocal_preserve s sdp ty).2.2
  | setRemote sdp ty => exact Or.inl (setRemote_preserve s sdp ty).2.2
  | closeStep => exact Or.inl rfl
  | gatherStart h hg ht hl => exact Or.inr (Or.inl ⟨hg, rfl⟩)
  | gatherDone h hg => exact Or.inr (Or.inr ⟨hg, rfl⟩)
  | checkStart h hi hl hr => exact Or.inl rfl
  | checkSucceed h hi => exact Or.inl rfl
  | checkFail h hi => exact Or.inl rfl
  | checksOptimal h hi => exact Or.inl rfl
  | disconnect h hi => exact Or.inl rfl
  | recover h hi => exact Or.inl rfl
  | videoFrame h hi => exact Or.inl rfl
  | encodedAudio h hi => exact Or.inl rfl

lemma step_gath_mono {s : PCState} {c : Option Callback} {s' : PCState} (h : Step s c s') :
    ICEGatheringState.code s.gathState ≤ ICEGatheringState.code s'.gathState := by
  rcases step_gath h with he | ⟨h1, h2⟩ | ⟨h1, h2⟩
  · rw [he]
  · rw [h1, h2]; decide
  · rw [h1, h2]; decide

lemma step_gath_complete {s : PCState} {c : Option Callback} {s' : PCState}
    (h : Step s c s') (hc : s.gathState = ICEGatheringState.complete) :
    s'.gathState = ICEGatheringState.complete := by
  rcases step_gath h with he | ⟨h1, h2⟩ | ⟨h1, h2⟩
  · rw [he, hc]
  · rw [hc] at h1; exact absurd h1 (by decide)
  · rw [hc] at h1; exact absurd h1 (by decide)

lemma step_ice {s : PCState} {c : Option Callback} {s' : PCState} (h : Step s c s') :
    s'.iceState = s.iceState ∨
    (s.iceState = ICEConnectionState.new ∧ s'.iceState = ICEConnectionState.checking) ∨
    (s.iceState = ICEConnectionState.checking ∧ s'.iceState = ICEConnectionState.connected) ∨
    (s.iceState = ICEConnectionState.checking ∧ s'.iceState = ICEConnectionState.failed) ∨
    (s.iceState = ICEConnectionState.connected ∧ s'.iceState = ICEConnectionState.completed) ∨
    ((s.iceState = ICEConnectionState.connected ∨ s.iceState = ICEConnectionState.completed) ∧
      s'.iceState = ICEConnectionState.disconnected) ∨
    (s.iceState = ICEConnectionState.disconnected ∧ s'.iceState = ICEConnectionState.connected) ∨
    s'.iceState = ICEConnectionState.closed := by
  cases h with
  | addVideo => exact Or.inl (addVideo_preserve s).2.1
  | addAudio => exact Or.inl (addAudio_preserve s).2.1
  | setLocal sdp ty => exact Or.inl (setLocal_preserve s sdp ty).2.1
  | setRemote sdp ty => exact Or.inl (setRemote_preserve s sdp ty).2.1
  | closeStep => exact Or.inr (Or.inr (Or.inr (Or.inr (Or.inr (Or.inr (Or.inr rfl))))))
  | gatherStart h hg ht hl => exact Or.inl rfl
  | gatherDone h hg => exact Or.inl rfl
  | checkStart h hi hl hr => exact Or.inr (Or.inl ⟨hi, rfl⟩)
  | checkSucceed h hi => exact Or.inr (Or.inr (Or.inl ⟨hi, rfl⟩))
  | checkFail h hi => exact Or.inr (Or.inr (Or.inr (Or.inl ⟨hi, rfl⟩)))
  | checksOptimal h hi => exact Or.inr (Or.inr (Or.inr (Or.inr (Or.inl ⟨hi, rfl⟩))))
  | disconnect h hi => exact Or.inr (Or.inr (Or.inr (Or.inr (Or.inr (Or.inl ⟨hi, rfl⟩)))))
  | recover h hi => exact Or.inr (Or.inr (Or.inr (Or.inr (Or.inr (Or.inr (Or.inl ⟨hi, rfl⟩))))))
  | videoFrame h hi => exact Or.inl rfl
  | encodedAudio h hi => exact Or.inl rfl

/-- C1: after `webrtc_objc_pc_close` returns, no further observer callback is
delivered for that connection over any number of subsequent steps, every
subsequent mutating operation on the handle is rejected, and a second close is
a no-op (close is idempotent). -/
theorem c1_close_quiescent_and_idempotent :
    (∀ (s : PCState) (cbs : List Callback) (s' : PCState),
      Steps (webrtc_objc_pc_close s) cbs s' → cbs = []) ∧
    (∀ (s : PCState) (sdp : String) (ty : SDType),
      (webrtc_objc_pc_add_video_transceiver (webrtc_objc_pc_close s)).1 =
        StatusCode.invalidHandle ∧
      (webrtc_objc_pc_add_audio_transceiver (webrtc_objc_pc_close s)).1 =
        StatusCode.invalidHandle ∧
      (webrtc_objc_pc_set_local_description (webrtc_objc_pc_close s) sdp ty).1 =
        StatusCode.invalidHandle ∧
      (webrtc_objc_pc_set_remote_description (webrtc_objc_pc_close s) sdp ty).1 =
        StatusCode.invalidHandle ∧
      webrtc_objc_pc_create_offer (webrtc_objc_pc_close s) = none) ∧
    (∀ s : PCState, webrtc_objc_pc_close (webrtc_objc_pc_close s) = webrtc_objc_pc_close s) := by
  refine ⟨?_, ?_, ?_⟩
  · intro s cbs s' h
    exact steps_closed_no_cb h rfl
  · intro s sdp ty
    exact ⟨by rw [addVideo_on_closed _ rfl],
           by rw [addAudio_on_closed _ rfl],
           by rw [setLocal_on_closed _ sdp ty rfl],
           by rw [setRemote_on_closed _ sdp ty rfl],
           createOffer_on_closed _ rfl⟩
  · intro s
    rfl

theorem c1_witness : consOpt none [] = [] :=
  c1_close_quiescent_and_idempotent.1 initialPC (consOpt none [])
    (webrtc_objc_pc_close (webrtc_objc_pc_close initialPC))
    (Steps.cons (Step.closeStep (webrtc_objc_pc_close initialPC))
      (Steps.refl (webrtc_objc_pc_close (webrtc_objc_pc_close initialPC))))

/-- C2: within one connection, the gathering state only ever changes along
new → gathering → complete (never regresses), hence its numeric code is
monotone over any number of observed steps and `complete` is terminal. -/
theorem c2_gathering_monotone :
    (∀ (s : PCState) (c : Option Callback) (s' : PCState), Step s c s' →
      s'.gathState ≠ s.gathState →
      (s.gathState = ICEGatheringState.new ∧ s'.gathState = ICEGatheringState.gathering) ∨
      (s.gathState = ICEGatheringState.gathering ∧ s'.gathState = ICEGatheringState.complete)) ∧
    (∀ (s : PCState) (cbs : List Callback) (s' : PCState), Steps s cbs s' →
      ICEGatheringState.code s.gathState ≤ ICEGatheringState.code s'.gathState ∧
      (s.gathState = ICEGatheringState.complete → s'.gathState = ICEGatheringState.complete)) := by
  constructor
  · intro s c s' h hne
    rcases step_gath h with he | h1 | h1
    · exact absurd he hne
    · exact Or.inl h1
    · exact Or.inr h1
  · intro s cbs s' h
    induction h with
    | refl s => exact ⟨le_refl _, fun h => h⟩
    | cons hstep hrest ih =>
      exact ⟨le_trans (step_gath_mono hstep) ih.1,
             fun hc => ih.2 (step_gath_complete hstep hc)⟩

theorem c2_witness :
    ICEGatheringState.code ICEGatheringState.new ≤
      ICEGatheringState.code ICEGatheringState.gathering ∧
    (ICEGatheringState.new = ICEGatheringState.complete →
      ICEGatheringState.gathering = ICEGatheringState.complete) := by
  exact c2_gathering_monotone.2 readyPC _ _
    (Steps.cons (Step.gatherStart readyPC rfl rfl (Or.inl rfl) rfl)
      (Steps.refl { readyPC with gathState := ICEGatheringState.gathering }))

/-- C3: every step changes the ICE connection state only along the state
machine new → checking → (connected | failed), connected → completed,
connected or completed → disconnected, disconnected → connected, any → closed;
`failed` is entered only from `checking` or `connected` (never directly from
`new`) and is terminal for the negotiation attempt (only the explicit close
leaves it). -/
theorem c3_connection_state_machine :
    ∀ (s : PCState) (c : Option Callback) (s' : PCState), Step s c s' →
      (s'.iceState = ICEConnectionState.failed →
        s.iceState = ICEConnectionState.failed ∨ s.iceState = ICEConnectionState.checking ∨
          s.iceState = ICEConnectionState.connected) ∧
      (s.iceState = ICEConnectionState.new → s'.iceState ≠ ICEConnectionState.failed) ∧
      (s.iceState = ICEConnectionState.failed →
        s'.iceState = ICEConnectionState.failed ∨ s'.iceState = ICEConnectionState.closed) ∧
      (s'.iceState ≠ s.iceState →
        (s.iceState = ICEConnectionState.new ∧ s'.iceState = ICEConnectionState.checking) ∨
        (s.iceState = ICEConnectionState.checking ∧
          (s'.iceState = ICEConnectionState.connected ∨
            s'.iceState = ICEConnectionState.failed)) ∨
        (s.iceState = ICEConnectionState.connected ∧
          s'.iceState = ICEConnectionState.completed) ∨
        ((s.iceState = ICEConnectionState.connected ∨
            s.iceState = ICEConnectionState.completed) ∧
          s'.iceState = ICEConnectionState.disconnected) ∨
        (s.iceState = ICEConnectionState.disconnected ∧
          s'.iceState = ICEConnectionState.connected) ∨
        s'.iceState = ICEConnectionState.closed) := by
  intro s c s' h
  refine ⟨?_, ?_, ?_, ?_⟩ <;>
    rcases step_ice h with he | ⟨ha, hb⟩ | ⟨ha, hb⟩ | ⟨ha, hb⟩ | ⟨ha, hb⟩ |
      ⟨ha | ha, hb⟩ | ⟨ha, hb⟩ | hb <;>
    simp_all

theorem c3_witness :
    checkingPC.iceState = ICEConnectionState.failed ∨
    checkingPC.iceState = ICEConnectionState.checking ∨
    checkingPC.iceState = ICEConnectionState.connected := by
  exact (c3_connection_state_machine checkingPC _ _
    (Step.checkFail checkingPC rfl rfl)).1 rfl

/-- C10: although the header's state callbacks take a raw `int`, every
delivered `OnICEStateCallback` value is among the declared enum values 0..6
and every delivered `OnICEGatheringStateCallback` value is among 0..2. -/
theorem c10_callback_codes_in_range :
    (∀ (s : PCState) (n : Nat) (s' : PCState),
      Step s (some (Callback.onICEState n)) s' → n ≤ 6) ∧
    (∀ (s : PCState) (n : Nat) (s' : PCState),
      Step s (some (Callback.onICEGatheringState n)) s' → n ≤ 2) := by
  constructor
  · intro s n s' h
    cases h <;> decide
  · intro s n s' h
    cases h <;> decide

theorem c10_witness : ICEGatheringState.code ICEGatheringState.gathering ≤ 2 :=
  c10_callback_codes_in_range.2 readyPC _ _
    (Step.gatherStart readyPC rfl rfl (Or.inl rfl) rfl)

/-- C4: on a connection that already has a video transceiver, a second
`webrtc_objc_pc_add_video_transceiver` fails with PreconditionViolated, and
symmetrically for audio; in particular a successful add followed by the same
add again fails with PreconditionViolated. -/
theorem c4_duplicate_transceiver_rejected :
    ∀ s : PCState,
      ((webrtc_objc_pc_add_video_transceiver s).1 = StatusCode.ok →
        (webrtc_objc_pc_add_video_transceiver
          (webrtc_objc_pc_add_video_transceiver s).2).1 = StatusCode.preconditionViolated) ∧
      ((webrtc_objc_pc_add_audio_transceiver s).1 = StatusCode.ok →
        (webrtc_objc_pc_add_audio_transceiver
          (webrtc_objc_pc_add_audio_transceiver s).2).1 = StatusCode.preconditionViolated) ∧
      (s.closed = false → s.hasVideo = true →
        (webrtc_objc_pc_add_video_transceiver s).1 = StatusCode.preconditionViolated) ∧
      (s.closed = false → s.hasAudio = true →
        (webrtc_objc_pc_add_audio_transceiver s).1 = StatusCode.preconditionViolated) := by
  intro s
  refine ⟨?_, ?_, ?_, ?_⟩
  · intro h
    unfold webrtc_objc_pc_add_video_transceiver at h ⊢
    repeat' split at h
    all_goals simp_all
  · intro h
    unfold webrtc_objc_pc_add_audio_transceiver at h ⊢
    repeat' split at h
    all_goals simp_all
  · intro hc hv
    simp [webrtc_objc_pc_add_video_transceiver, hc, hv]
  · intro hc ha
    simp [webrtc_objc_pc_add_audio_transceiver, hc, ha]

theorem c4_witness :
    (webrtc_objc_pc_add_video_transceiver
      (webrtc_objc_pc_add_video_transceiver initialPC).2).1 = StatusCode.preconditionViolated :=
  (c4_duplicate_transceiver_rejected initialPC).1 rfl

/-- C5: applying a remote `answer` succeeds only if a local offer is already
set, applying a remote `offer` succeeds only if no local description is yet
set, and violating either ordering (on an open handle with a well-formed
text) fails with PreconditionViolated. -/
theorem c5_remote_description_ordering :
    ∀ (s : PCState) (sdp : String), s.closed = false →
      validDescription SDType.answer sdp = true → validDescription SDType.offer sdp = true →
      ((webrtc_objc_pc_set_remote_description s sdp SDType.answer).1 = StatusCode.ok →
        hasLocalOffer s = true) ∧
      (hasLocalOffer s = false →
        (webrtc_objc_pc_set_remote_description s sdp SDType.answer).1 =
          StatusCode.preconditionViolated) ∧
      ((webrtc_objc_pc_set_remote_description s sdp SDType.offer).1 = StatusCode.ok →
        s.localDesc = none) ∧
      (s.localDesc.isSome = true →
        (webrtc_objc_pc_set_remote_description s sdp SDType.offer).1 =
          StatusCode.preconditionViolated) := by
  intro s sdp hc hva hvo
  refine ⟨?_, ?_, ?_, ?_⟩
  · intro h
    by_cases hlo : hasLocalOffer s = true
    · exact hlo
    · have hlo' : hasLocalOffer s = false := by
        revert hlo; cases hasLocalOffer s <;> simp
      simp [webrtc_objc_pc_set_remote_description, hc, hva, hlo'] at h
  · intro hlo
    simp [webrtc_objc_pc_set_remote_description, hc, hva, hlo]
  · intro h
    cases hsl : s.localDesc with
    | none => rfl
    | some d =>
      exfalso
      simp [webrtc_objc_pc_set_remote_description, hc, hvo, hsl] at h
  · intro hsl
    simp [webrtc_objc_pc_set_remote_description, hc, hvo, hsl]

theorem c5_witness :
    (webrtc_objc_pc_set_remote_description readyPC "o=remote" SDType.offer).1 =
      StatusCode.preconditionViolated :=
  (c5_remote_description_ordering readyPC "o=remote" rfl (by decide) (by decide)).2.2.2 rfl

lemma validDescription_offerText (s : PCState) :
    validDescription SDType.offer (offerText s) = true := by
  have h : ∀ (hv ha : Bool) (g : ICEGatheringState),
      validDescription SDType.offer
        ("v=0 offer" ++ (if hv then " m=video" else "") ++ (if ha then " m=audio" else "")
          ++ " gathering=" ++ toString (ICEGatheringState.code g)) = true := by
    intro hv ha g
    cases hv <;> cases ha <;> cases g <;> decide
  exact h s.hasVideo s.hasAudio s.gathState

lemma isSome_false_eq_none {α : Type} {o : Option α} (h : o.isSome = false) : o = none := by
  cases o with
  | none => rfl
  | some a => simp at h

/-- C6: re-applying an identical, already-applied local description is a
no-op that succeeds and leaves the whole connection state unchanged, while
re-applying a well-formed but different description once checking has started
is rejected with PreconditionViolated. -/
theorem c6_set_local_description_idempotent :
    ∀ (s : PCState) (d : SessionDescription), s.closed = false →
      validDescription d.sdpType d.text = true → s.localDesc = some d →
      (webrtc_objc_pc_set_local_description s d.text d.sdpType = (StatusCode.ok, s)) ∧
      (∀ (ty : SDType) (txt : String), validDescription ty txt = true →
        ¬(ty = d.sdpType ∧ txt = d.text) → s.iceState ≠ ICEConnectionState.new →
        (webrtc_objc_pc_set_local_description s txt ty).1 = StatusCode.preconditionViolated) := by
  intro s d hc hv hl
  have hl' : s.localDesc = some { sdpType := d.sdpType, text := d.text } := hl
  constructor
  · simp [webrtc_objc_pc_set_local_description, hc, hv, hl']
  · intro ty txt hv' hne hice
    have h1 : ¬ (s.closed = true) := by simp [hc]
    have h2 : ¬ (validDescription ty txt = false) := by simp [hv']
    have h3 : ¬ (s.localDesc = some { sdpType := ty, text := txt }) := by
      rw [hl]
      intro hcontra
      have hd : d = { sdpType := ty, text := txt } := Option.some.inj hcontra
      exact hne ⟨(congrArg SessionDescription.sdpType hd).symm,
                 (congrArg SessionDescription.text hd).symm⟩
    unfold webrtc_objc_pc_set_local_description
    rw [if_neg h1, if_neg h2, if_neg h3]
    by_cases h4 : ty = SDType.answer ∧ hasRemoteOffer s = false
    · rw [if_pos h4]
    · rw [if_neg h4, if_pos ⟨by rw [hl]; rfl, hice⟩]

theorem c6_witness :
    webrtc_objc_pc_set_local_description checkingPC "v=0" SDType.offer =
      (StatusCode.ok, checkingPC) ∧
    (webrtc_objc_pc_set_local_description checkingPC "v=1" SDType.offer).1 =
      StatusCode.preconditionViolated := by
  have h := c6_set_local_description_idempotent checkingPC
    { sdpType := SDType.offer, text := "v=0" } rfl (by decide) rfl
  exact ⟨h.1, h.2 SDType.offer "v=1" (by decide) (by decide) (by decide)⟩

/-- C7: `webrtc_objc_pc_get_local_description` returns the unset sentinel
(`none`, the NULL C string) while no local description is set, and after a
successful `webrtc_objc_pc_create_offer` followed by
`webrtc_objc_pc_set_local_description` of that offer it returns exactly the
offer text that was produced. -/
theorem c7_get_local_description_roundtrip :
    (∀ s : PCState, s.localDesc = none → webrtc_objc_pc_get_local_description s = none) ∧
    (∀ (s : PCState) (txt : String), webrtc_objc_pc_create_offer s = some txt →
      webrtc_objc_pc_get_local_description
        (webrtc_objc_pc_set_local_description s txt SDType.offer).2 = some txt) := by
  constructor
  · intro s h
    simp [webrtc_objc_pc_get_local_description, h]
  · intro s txt h
    unfold webrtc_objc_pc_create_offer at h
    split at h
    · cases h
    split at h
    · cases h
    split at h
    · cases h
    have htxt : txt = offerText s := (Option.some.inj h).symm
    rename_i hcb _ hsb
    have hc : s.closed = false := by revert hcb; cases s.closed <;> simp
    have hl : s.localDesc = none := by
      refine isSome_false_eq_none ?_
      revert hsb; cases s.localDesc.isSome <;> simp
    subst htxt
    have hval := validDescription_offerText s
    simp [webrtc_objc_pc_set_local_description, hc, hval, hl,
      webrtc_objc_pc_get_local_description]

theorem c7_witness :
    webrtc_objc_pc_get_local_description
      (webrtc_objc_pc_set_local_description videoPC (offerText videoPC) SDType.offer).2 =
      some (offerText videoPC) :=
  c7_get_local_description_roundtrip.2 videoPC (offerText videoPC) rfl

/-- C8: `webrtc_objc_pc_create_offer` fails (returns the failure sentinel)
whenever the connection has zero transceivers, and it succeeds only when at
least one transceiver exists, no local description has yet been set, and the
connection is open. -/
theorem c8_create_offer_preconditions :
    ∀ s : PCState,
      (s.hasVideo = false → s.hasAudio = false → webrtc_objc_pc_create_offer s = none) ∧
      (∀ txt : String, webrtc_objc_pc_create_offer s = some txt →
        (s.hasVideo = true ∨ s.hasAudio = true) ∧ s.localDesc = none ∧ s.closed = false) := by
  intro s
  constructor
  · intro hv ha
    simp [webrtc_objc_pc_create_offer, hv, ha]
  · intro txt h
    unfold webrtc_objc_pc_create_offer at h
    split at h
    · cases h
    split at h
    · cases h
    split at h
    · cases h
    rename_i hcb htb hsb
    refine ⟨by tauto, ?_, ?_⟩
    · refine isSome_false_eq_none ?_
      revert hsb; cases s.localDesc.isSome <;> simp
    · revert hcb; cases s.closed <;> simp

theorem c8_witness : webrtc_objc_pc_create_offer initialPC = none :=
  (c8_create_offer_preconditions initialPC).1 rfl rfl

/-- C9: `webrtc_objc_i420_to_rgba` is a pure deterministic function of its
input planes, strides and dimensions (equal inputs give equal results), and
it fails if and only if the width or height is non-positive or the supplied
destination capacity is smaller than the bytes the packed image needs. -/
theorem c9_i420_to_rgba_contract :
    ∀ (srcY srcU srcV g1 g2 g3 : Nat → Nat) (sY sU sV : Int) (cap : Nat)
      (ds w h : Int),
      (webrtc_objc_i420_to_rgba srcY sY srcU sU srcV sV cap ds w h = none ↔
        w ≤ 0 ∨ h ≤ 0 ∨ cap < ds.toNat * (h.toNat - 1) + 4 * w.toNat) ∧
      (srcY = g1 → srcU = g2 → srcV = g3 →
        webrtc_objc_i420_to_rgba srcY sY srcU sU srcV sV cap ds w h =
          webrtc_objc_i420_to_rgba g1 sY g2 sU g3 sV cap ds w h) := by
  intro srcY srcU srcV g1 g2 g3 sY sU sV cap ds w h
  constructor
  · unfold webrtc_objc_i420_to_rgba
    by_cases h1 : w ≤ 0 ∨ h ≤ 0
    · rw [if_pos h1]
      constructor
      · intro _
        rcases h1 with ha | ha
        · exact Or.inl ha
        · exact Or.inr (Or.inl ha)
      · intro _
        rfl
    · rw [if_neg h1]
      by_cases h2 : cap < ds.toNat * (h.toNat - 1) + 4 * w.toNat
      · rw [if_pos h2]
        constructor
        · intro _
          exact Or.inr (Or.inr h2)
        · intro _
          rfl
      · rw [if_neg h2]
        constructor
        · intro hcontra
          simp at hcontra
        · intro hor
          rcases hor with ha | ha | ha
          · exact absurd (Or.inl ha) h1
          · exact absurd (Or.inr ha) h1
          · exact absurd ha h2
  · intro e1 e2 e3
    rw [e1, e2, e3]

theorem c9_witness :
    webrtc_objc_i420_to_rgba zeroPlane 1 zeroPlane 1 zeroPlane 1 4 4 0 1 = none ∧
    webrtc_objc_i420_to_rgba zeroPlane 1 zeroPlane 1 zeroPlane 1 4 4 1 1 =
      webrtc_objc_i420_to_rgba zeroPlane 1 zeroPlane 1 zeroPlane 1 4 4 1 1 :=
  ⟨(c9_i420_to_rgba_contract zeroPlane zeroPlane zeroPlane zeroPlane zeroPlane zeroPlane
      1 1 1 4 4 0 1).1.mpr (Or.inl (by decide)),
   (c9_i420_to_rgba_contract zeroPlane zeroPlane zeroPlane zeroPlane zeroPlane zeroPlane
      1 1 1 4 4 1 1).2 rfl rfl rfl⟩
